import Mathlib

/-!
Shallow embedding of the tax engines of the TaxCalculatorNG repository
(src/utils/taxCalculations.ts and src/utils/businessTaxCalculations.ts,
with the data model of src/types/taxTypes.ts).

Currency amounts and rates are JavaScript numbers in the source; they are
embedded as rationals, so that every arithmetic identity is exact.  The
display label of a per-bracket breakdown line (a formatted currency string
built with toLocaleString) is purely presentational and is omitted from the
embedded breakdown line; all numeric fields are kept.

The checked-in src/utils/taxCalculations.ts is a stale snapshot of the
personal engine: its calculateTax neither reads reliefs.customDeductions nor
returns the customDeductionsTotal / customDeductions fields that the declared
TaxBreakdown interface requires, and the app (src/app/(tabs)/calculator.tsx)
imports a calculateTaxFromWeekly that the file does not export.  Those two
missing pieces are modelled from the spec (see the doc comments of
customDeductionTotals and calculateTaxFromWeekly); everything else is a
direct translation of the source.
-/

/-- Custom deduction item (src/types/taxTypes.ts, CustomDeduction): a named
amount flagged either as a taxable addition or as a deduction. -/
structure CustomDeduction where
  id : String
  name : String
  amount : ℚ
  isTaxable : Bool
deriving Repr, DecidableEq

/-- One personal tax bracket (src/types/taxTypes.ts, TaxBracket); max = none
stands for the source's null, meaning no upper limit. -/
structure TaxBracket where
  min : ℚ
  max : Option ℚ
  rate : ℚ
deriving Repr, DecidableEq

/-- Personal reliefs input (src/types/taxTypes.ts, TaxReliefs); every field is
optional in the source. -/
structure TaxReliefs where
  pension : Option ℚ := none
  nhf : Option ℚ := none
  nhis : Option ℚ := none
  lifeInsurance : Option ℚ := none
  rentPaid : Option ℚ := none
  customDeductions : Option (List CustomDeduction) := none
deriving Repr, DecidableEq

/-- One line of the per-bracket tax attribution (the elements of
TaxBreakdown.taxPerBracket in src/types/taxTypes.ts).  The formatted string
label is omitted; see the file comment. -/
structure BracketLine where
  taxableAmount : ℚ
  rate : ℚ
  tax : ℚ
deriving Repr, DecidableEq

/-- Personal tax breakdown (src/types/taxTypes.ts, TaxBreakdown). -/
structure TaxBreakdown where
  grossIncome : ℚ
  pensionRelief : ℚ
  nhfRelief : ℚ
  nhisRelief : ℚ
  lifeInsuranceRelief : ℚ
  rentRelief : ℚ
  customDeductionsTotal : ℚ
  customDeductions : List CustomDeduction
  totalReliefs : ℚ
  taxableIncome : ℚ
  taxPerBracket : List BracketLine
  totalTax : ℚ
  netIncome : ℚ
deriving Repr, DecidableEq

/-- Default bracket table (src/utils/taxCalculations.ts, TAX_BRACKETS_2026). -/
def TAX_BRACKETS_2026 : List TaxBracket :=
  [ { min := 0, max := some 800000, rate := 0 },
    { min := 800000, max := some 3000000, rate := 15 },
    { min := 3000000, max := some 12000000, rate := 18 },
    { min := 12000000, max := some 25000000, rate := 21 },
    { min := 25000000, max := some 50000000, rate := 23 },
    { min := 50000000, max := none, rate := 25 } ]

/-- Maximum personal rent relief (src/utils/taxCalculations.ts). -/
def RENT_RELIEF_MAX : ℚ := 200000

/-- Personal rent relief percentage, 20 percent (src/utils/taxCalculations.ts). -/
def RENT_RELIEF_PERCENTAGE : ℚ := 0.20

/-- Embedding of the JavaScript idiom `x || 0` on an optional numeric field:
an absent field and a zero field both give 0, any other value passes through
(0 || 0 is 0, so this is exactly Option.getD). -/
def orZero (x : Option ℚ) : ℚ := x.getD 0

/-- Rent relief (src/utils/taxCalculations.ts, calculateRentRelief): zero for
rent ≤ 0, otherwise the lower of RENT_RELIEF_MAX and 20 percent of the rent.
The source guard `!annualRentPaid || annualRentPaid <= 0` is `≤ 0` on
rationals, since the only falsy number is 0. -/
def calculateRentRelief (annualRentPaid : ℚ) : ℚ :=
  if annualRentPaid ≤ 0 then 0
  else min RENT_RELIEF_MAX (annualRentPaid * RENT_RELIEF_PERCENTAGE)

/-- Income slice of one loop iteration of calculateTax
(src/utils/taxCalculations.ts, lines 184 to 195): the part of taxableIncome
falling in the bracket.  `bracketMax = bracket.max || Infinity` maps a null
max (and a zero max, JavaScript falsy) to no cap, in which case
`Math.min(taxableIncome, Infinity)` is taxableIncome. -/
def bracketSlice (taxableIncome : ℚ) (b : TaxBracket) : ℚ :=
  let capped : ℚ :=
    match b.max with
    | none => taxableIncome
    | some m => if m = 0 then taxableIncome else min taxableIncome m
  if b.min < taxableIncome then max 0 (capped - b.min) else 0

/-- Bracket loop of calculateTax (src/utils/taxCalculations.ts, lines 175 to
215): walks the table, accumulating total tax and emitting a breakdown line
for every bracket with a positive slice.  The source's `remainingIncome` is
initialised to taxableIncome and never modified inside the loop, so the
`remainingIncome <= 0` break test is a constant test on taxableIncome
performed at the head of every iteration. -/
def taxLoop (taxableIncome : ℚ) : List TaxBracket → List BracketLine × ℚ
  | [] => ([], 0)
  | b :: bs =>
    if taxableIncome ≤ 0 then ([], 0)
    else
      let incomeInBracket := bracketSlice taxableIncome b
      let taxInBracket := incomeInBracket * b.rate / 100
      let rest := taxLoop taxableIncome bs
      (if 0 < incomeInBracket then
          { taxableAmount := incomeInBracket, rate := b.rate,
            tax := taxInBracket } :: rest.1
        else rest.1,
        taxInBracket + rest.2)

/-- Modelled from the spec: the custom-deduction partition of the personal
engine (spec section 4.1 steps 2 to 4), missing from the checked-in
src/utils/taxCalculations.ts (see the file comment) and identical to the
forEach partition present in src/utils/businessTaxCalculations.ts, lines 260
to 273, which this definition also embeds for the business engine.  Each item
flagged isTaxable adds its amount to the taxable-addition accumulator (second
component); every other item adds its amount to customDeductionsTotal (first
component). -/
def customDeductionTotals (ds : List CustomDeduction) : ℚ × ℚ :=
  ds.foldl
    (fun acc d =>
      if d.isTaxable then (acc.1, acc.2 + d.amount) else (acc.1 + d.amount, acc.2))
    (0, 0)

/-- Personal tax engine (src/utils/taxCalculations.ts, calculateTax), with the
custom-deduction steps taken from the spec as explained at
customDeductionTotals.  The named reliefs are clamped by
`Math.min(value, RELIEF_LIMITS.field)` in the source, where every configured
limit is Infinity, so the clamp is the identity and is elided here. -/
def calculateTax (grossIncome : ℚ) (reliefs : TaxReliefs := {}) : TaxBreakdown :=
  let pensionRelief := orZero reliefs.pension
  let nhfRelief := orZero reliefs.nhf
  let nhisRelief := orZero reliefs.nhis
  let lifeInsuranceRelief := orZero reliefs.lifeInsurance
  let rentRelief := calculateRentRelief (orZero reliefs.rentPaid)
  let customDeductions := reliefs.customDeductions.getD []
  let totals := customDeductionTotals customDeductions
  let customDeductionsTotal := totals.1
  let customTaxableAdditions := totals.2
  let totalReliefs :=
    pensionRelief + nhfRelief + nhisRelief + lifeInsuranceRelief + rentRelief +
      customDeductionsTotal
  let taxableIncome := max 0 (grossIncome - totalReliefs + customTaxableAdditions)
  let walk := taxLoop taxableIncome TAX_BRACKETS_2026
  let totalTax := walk.2
  let netIncome := grossIncome - totalTax
  { grossIncome := grossIncome
    pensionRelief := pensionRelief
    nhfRelief := nhfRelief
    nhisRelief := nhisRelief
    lifeInsuranceRelief := lifeInsuranceRelief
    rentRelief := rentRelief
    customDeductionsTotal := customDeductionsTotal
    customDeductions := customDeductions
    totalReliefs := totalReliefs
    taxableIncome := taxableIncome
    taxPerBracket := walk.1
    totalTax := totalTax
    netIncome := netIncome }

/-- Monthly to annual conversion (src/utils/taxCalculations.ts). -/
def monthlyToAnnual (monthlyIncome : ℚ) : ℚ := monthlyIncome * 12

/-- Embedding of the JavaScript idiom `x ? x * k : 0` used by the wrapper on
each per-period relief field: absent and zero both give 0, any other value is
scaled by k. -/
def truthyScale (k : ℚ) (x : Option ℚ) : ℚ :=
  match x with
  | none => 0
  | some v => if v = 0 then 0 else v * k

/-- Monthly wrapper (src/utils/taxCalculations.ts, calculateTaxFromMonthly):
annualizes the income and the per-period relief fields by 12, passes rent
through unscaled, drops custom deductions (the source object literal has no
customDeductions key), then delegates to calculateTax. -/
def calculateTaxFromMonthly (monthlyIncome : ℚ)
    (monthlyReliefs : TaxReliefs := {}) : TaxBreakdown :=
  let annualIncome := monthlyToAnnual monthlyIncome
  let annualReliefs : TaxReliefs :=
    { pension := some (truthyScale 12 monthlyReliefs.pension)
      nhf := some (truthyScale 12 monthlyReliefs.nhf)
      nhis := some (truthyScale 12 monthlyReliefs.nhis)
      lifeInsurance := some (truthyScale 12 monthlyReliefs.lifeInsurance)
      rentPaid := some (orZero monthlyReliefs.rentPaid)
      customDeductions := none }
  calculateTax annualIncome annualReliefs

/-- Modelled from the spec: the weekly wrapper calculateTaxFromWeekly, which
the checked-in src/utils/taxCalculations.ts does not define although the app
imports it (see the file comment).  Per the spec it multiplies the input by
52, annualizes the per-period relief fields the same way as the monthly
wrapper, passes rent through unscaled, then delegates. -/
def calculateTaxFromWeekly (weeklyIncome : ℚ)
    (weeklyReliefs : TaxReliefs := {}) : TaxBreakdown :=
  let annualIncome := weeklyIncome * 52
  let annualReliefs : TaxReliefs :=
    { pension := some (truthyScale 52 weeklyReliefs.pension)
      nhf := some (truthyScale 52 weeklyReliefs.nhf)
      nhis := some (truthyScale 52 weeklyReliefs.nhis)
      lifeInsurance := some (truthyScale 52 weeklyReliefs.lifeInsurance)
      rentPaid := some (orZero weeklyReliefs.rentPaid)
      customDeductions := none }
  calculateTax annualIncome annualReliefs

/-- Empty relief record: every optional field absent. -/
def emptyReliefs : TaxReliefs := {}

/-- Company size classification (src/types/taxTypes.ts, CompanySize). -/
inductive CompanySize where
  | small
  | medium
  | large
deriving Repr, DecidableEq

/-- Business type (src/types/taxTypes.ts, BusinessType). -/
inductive BusinessType where
  | general
  | startup
  | agricultural
deriving Repr, DecidableEq

/-- Business reliefs input (src/types/taxTypes.ts, BusinessTaxReliefs). -/
structure BusinessTaxReliefs where
  pension : Option ℚ := none
  nhf : Option ℚ := none
  nhis : Option ℚ := none
  rentPaid : Option ℚ := none
  employmentRelief : Option ℚ := none
  compensationRelief : Option ℚ := none
  customDeductions : Option (List CustomDeduction) := none
deriving Repr, DecidableEq

/-- Business tax breakdown (src/types/taxTypes.ts, BusinessTaxBreakdown). -/
structure BusinessTaxBreakdown where
  grossIncome : ℚ
  companySize : CompanySize
  businessType : BusinessType
  pensionRelief : ℚ
  nhfRelief : ℚ
  nhisRelief : ℚ
  rentRelief : ℚ
  employmentRelief : ℚ
  compensationRelief : ℚ
  customDeductionsTotal : ℚ
  customDeductions : List CustomDeduction
  totalReliefs : ℚ
  taxableIncome : ℚ
  companyIncomeTax : ℚ
  developmentLevy : ℚ
  minimumEffectiveTax : ℚ
  totalTax : ℚ
  isSmallCompanyExempt : Bool
  isStartupExempt : Bool
  isAgriculturalExempt : Bool
  netIncome : ℚ
  effectiveTaxRate : ℚ
deriving Repr, DecidableEq

/-- Small-company turnover cap (src/utils/businessTaxCalculations.ts). -/
def SMALL_COMPANY_TURNOVER_THRESHOLD : ℚ := 50000000

/-- Small-company fixed-assets cap (src/utils/businessTaxCalculations.ts). -/
def SMALL_COMPANY_ASSETS_THRESHOLD : ℚ := 250000000

/-- Company income tax rate, 30 percent (src/utils/businessTaxCalculations.ts). -/
def COMPANY_INCOME_TAX_RATE : ℚ := 0.30

/-- Development levy rate, 4 percent (src/utils/businessTaxCalculations.ts). -/
def DEVELOPMENT_LEVY_RATE : ℚ := 0.04

/-- Minimum effective tax rate, 15 percent (src/utils/businessTaxCalculations.ts). -/
def MINIMUM_EFFECTIVE_TAX_RATE : ℚ := 0.15

/-- Very-large-company turnover threshold (src/utils/businessTaxCalculations.ts). -/
def VERY_LARGE_COMPANY_THRESHOLD : ℚ := 50000000000

/-- Maximum business rent relief (src/utils/businessTaxCalculations.ts). -/
def BUSINESS_RENT_RELIEF_MAX : ℚ := 500000

/-- Business rent relief percentage (src/utils/businessTaxCalculations.ts). -/
def BUSINESS_RENT_RELIEF_PERCENTAGE : ℚ := 0.20

/-- Employment relief rate, 50 percent (src/utils/businessTaxCalculations.ts). -/
def EMPLOYMENT_RELIEF_RATE : ℚ := 0.50

/-- Compensation relief rate, 50 percent (src/utils/businessTaxCalculations.ts). -/
def COMPENSATION_RELIEF_RATE : ℚ := 0.50

/-- Small-company test (src/utils/businessTaxCalculations.ts, isSmallCompany):
both the turnover and the assets bound must hold, both inclusive. -/
def isSmallCompany (annualTurnover : ℚ) (totalFixedAssets : ℚ := 0) : Bool :=
  decide (annualTurnover ≤ SMALL_COMPANY_TURNOVER_THRESHOLD) &&
    decide (totalFixedAssets ≤ SMALL_COMPANY_ASSETS_THRESHOLD)

/-- Very-large-company test (src/utils/businessTaxCalculations.ts,
isVeryLargeCompany): turnover at least the threshold, inclusive. -/
def isVeryLargeCompany (annualTurnover : ℚ) : Bool :=
  decide (VERY_LARGE_COMPANY_THRESHOLD ≤ annualTurnover)

/-- Business rent relief (src/utils/businessTaxCalculations.ts,
calculateBusinessRentRelief): zero for rent ≤ 0, otherwise the lower of
BUSINESS_RENT_RELIEF_MAX and 20 percent of the rent. -/
def calculateBusinessRentRelief (annualRentPaid : ℚ) : ℚ :=
  if annualRentPaid ≤ 0 then 0
  else min BUSINESS_RENT_RELIEF_MAX (annualRentPaid * BUSINESS_RENT_RELIEF_PERCENTAGE)

/-- Business tax engine (src/utils/businessTaxCalculations.ts,
calculateBusinessTax), translated step by step from the source. -/
def calculateBusinessTax (grossIncome : ℚ) (companySize : CompanySize)
    (businessType : BusinessType) (reliefs : BusinessTaxReliefs := {})
    (totalFixedAssets : ℚ := 0) : BusinessTaxBreakdown :=
  let isSmallCompanyExempt :=
    (companySize == CompanySize.small) && isSmallCompany grossIncome totalFixedAssets
  let isStartupExempt := businessType == BusinessType.startup
  let isAgriculturalExempt := businessType == BusinessType.agricultural
  let pensionRelief := orZero reliefs.pension
  let nhfRelief := orZero reliefs.nhf
  let nhisRelief := orZero reliefs.nhis
  let rentRelief := calculateBusinessRentRelief (orZero reliefs.rentPaid)
  let employmentRelief := orZero reliefs.employmentRelief * EMPLOYMENT_RELIEF_RATE
  let compensationRelief := orZero reliefs.compensationRelief * COMPENSATION_RELIEF_RATE
  let customDeductions := reliefs.customDeductions.getD []
  let totals := customDeductionTotals customDeductions
  let customDeductionsTotal := totals.1
  let customTaxableAdditions := totals.2
  let totalReliefs :=
    pensionRelief + nhfRelief + nhisRelief + rentRelief + employmentRelief +
      compensationRelief + customDeductionsTotal
  let taxableIncome := max 0 (grossIncome - totalReliefs + customTaxableAdditions)
  let companyIncomeTax :=
    if isSmallCompanyExempt || isStartupExempt || isAgriculturalExempt then 0
    else taxableIncome * COMPANY_INCOME_TAX_RATE
  let developmentLevy :=
    if isSmallCompanyExempt then 0 else taxableIncome * DEVELOPMENT_LEVY_RATE
  let baseTax := companyIncomeTax + developmentLevy
  let override :=
    if isVeryLargeCompany grossIncome then
      let minimumETR := taxableIncome * MINIMUM_EFFECTIVE_TAX_RATE
      (minimumETR, if baseTax < minimumETR then minimumETR else baseTax)
    else (0, baseTax)
  let minimumEffectiveTax := override.1
  let totalTax := override.2
  let netIncome := grossIncome - totalTax
  let effectiveTaxRate := if 0 < grossIncome then totalTax / grossIncome * 100 else 0
  { grossIncome := grossIncome
    companySize := companySize
    businessType := businessType
    pensionRelief := pensionRelief
    nhfRelief := nhfRelief
    nhisRelief := nhisRelief
    rentRelief := rentRelief
    employmentRelief := employmentRelief
    compensationRelief := compensationRelief
    customDeductionsTotal := customDeductionsTotal
    customDeductions := customDeductions
    totalReliefs := totalReliefs
    taxableIncome := taxableIncome
    companyIncomeTax := companyIncomeTax
    developmentLevy := developmentLevy
    minimumEffectiveTax := minimumEffectiveTax
    totalTax := totalTax
    isSmallCompanyExempt := isSmallCompanyExempt
    isStartupExempt := isStartupExempt
    isAgriculturalExempt := isAgriculturalExempt
    netIncome := netIncome
    effectiveTaxRate := effectiveTaxRate }

/-- Empty business relief record: every optional field absent. -/
def emptyBusinessReliefs : BusinessTaxReliefs := {}

/-- Slice of taxable income lying within a bracket interval, written the way
the spec phrases it: the part of TI inside the half-open interval from the
bracket minimum to its (possibly absent) maximum, clamped at zero. -/
def bracketSliceSpec (taxableIncome : ℚ) (b : TaxBracket) : ℚ :=
  match b.max with
  | none => max 0 (taxableIncome - b.min)
  | some m => max 0 (min taxableIncome m - b.min)

/-- Total tax of a bracket table as a map-sum, for reasoning about the loop. -/
def bracketTaxSum (taxableIncome : ℚ) (bs : List TaxBracket) : ℚ :=
  (bs.map fun b => bracketSlice taxableIncome b * b.rate / 100).sum

lemma customDeductionTotals_foldl (ds : List CustomDeduction) (a b : ℚ) :
    ds.foldl
        (fun acc d =>
          if d.isTaxable then (acc.1, acc.2 + d.amount)
          else (acc.1 + d.amount, acc.2))
        (a, b)
      = (a + ((ds.filter fun d => !d.isTaxable).map fun d => d.amount).sum,
          b + ((ds.filter fun d => d.isTaxable).map fun d => d.amount).sum) := by
  induction ds generalizing a b with
  | nil => simp
  | cons d ds ih =>
    by_cases hd : d.isTaxable <;>
      simp only [List.foldl_cons, hd, if_true, if_false, Bool.not_true,
        Bool.not_false, List.filter_cons, Bool.false_eq_true, List.map_cons,
        List.sum_cons, ih] <;>
      simp [Prod.mk.injEq, add_assoc]

/-- The custom-deduction partition sums deductible amounts into the first
component and taxable amounts into the second. -/
lemma customDeductionTotals_eq (ds : List CustomDeduction) :
    customDeductionTotals ds
      = (((ds.filter fun d => !d.isTaxable).map fun d => d.amount).sum,
          ((ds.filter fun d => d.isTaxable).map fun d => d.amount).sum) := by
  simpa [customDeductionTotals] using customDeductionTotals_foldl ds 0 0

lemma bracketSlice_nonneg (taxableIncome : ℚ) (b : TaxBracket) :
    0 ≤ bracketSlice taxableIncome b := by
  rcases b with ⟨lo, mx, r⟩
  cases mx <;> simp only [bracketSlice] <;> split_ifs <;>
    simp [le_max_left]

lemma bracketSlice_none_eq (taxableIncome lo r : ℚ) :
    bracketSlice taxableIncome ⟨lo, none, r⟩ = max 0 (taxableIncome - lo) := by
  simp only [bracketSlice]
  split_ifs with h
  · rfl
  · rw [max_eq_left (show taxableIncome - lo ≤ 0 by push_neg at h; linarith)]

lemma bracketSlice_some_zero_eq (taxableIncome lo r : ℚ) :
    bracketSlice taxableIncome ⟨lo, some 0, r⟩
      = max 0 (taxableIncome - lo) := by
  simp only [bracketSlice, if_true]
  split_ifs with h
  · rfl
  · rw [max_eq_left (show taxableIncome - lo ≤ 0 by push_neg at h; linarith)]

lemma bracketSlice_some_eq (taxableIncome lo m r : ℚ) (hm : m ≠ 0) :
    bracketSlice taxableIncome ⟨lo, some m, r⟩
      = max 0 (min taxableIncome m - lo) := by
  simp only [bracketSlice, hm, if_false]
  split_ifs with h
  · rfl
  · push_neg at h
    have hmin := min_le_left taxableIncome m
    rw [max_eq_left (show min taxableIncome m - lo ≤ 0 by linarith)]

lemma bracketSlice_mono (b : TaxBracket) {t1 t2 : ℚ} (h : t1 ≤ t2) :
    bracketSlice t1 b ≤ bracketSlice t2 b := by
  rcases b with ⟨lo, mx, r⟩
  cases mx with
  | none =>
    rw [bracketSlice_none_eq, bracketSlice_none_eq]
    exact max_le_max le_rfl (sub_le_sub_right h lo)
  | some m =>
    by_cases hm : m = 0
    · subst hm
      rw [bracketSlice_some_zero_eq, bracketSlice_some_zero_eq]
      exact max_le_max le_rfl (sub_le_sub_right h lo)
    · rw [bracketSlice_some_eq _ _ _ _ hm, bracketSlice_some_eq _ _ _ _ hm]
      exact max_le_max le_rfl (sub_le_sub_right (min_le_min h le_rfl) lo)

lemma taxLoop_snd (taxableIncome : ℚ) (bs : List TaxBracket) :
    (taxLoop taxableIncome bs).2
      = if taxableIncome ≤ 0 then 0 else bracketTaxSum taxableIncome bs := by
  induction bs with
  | nil => simp [taxLoop, bracketTaxSum]
  | cons b bs ih =>
    by_cases h : taxableIncome ≤ 0 <;>
      simp [taxLoop, h, ih, bracketTaxSum]

lemma taxLoop_fst_amount_sum (taxableIncome : ℚ) (bs : List TaxBracket) :
    (((taxLoop taxableIncome bs).1.map fun l => l.taxableAmount)).sum
      = if taxableIncome ≤ 0 then 0
        else (bs.map fun b => bracketSlice taxableIncome b).sum := by
  induction bs with
  | nil => simp [taxLoop]
  | cons b bs ih =>
    by_cases h : taxableIncome ≤ 0
    · simp [taxLoop, h]
    · by_cases hs : 0 < bracketSlice taxableIncome b
      · simp [taxLoop, h, hs, ih]
      · have h0 : bracketSlice taxableIncome b = 0 :=
          le_antisymm (not_lt.mp hs) (bracketSlice_nonneg _ _)
        simp [taxLoop, h, hs, ih, h0]

lemma taxLoop_fst_tax_sum (taxableIncome : ℚ) (bs : List TaxBracket) :
    (((taxLoop taxableIncome bs).1.map fun l => l.tax)).sum
      = (taxLoop taxableIncome bs).2 := by
  induction bs with
  | nil => simp [taxLoop]
  | cons b bs ih =>
    by_cases h : taxableIncome ≤ 0
    · simp [taxLoop, h]
    · by_cases hs : 0 < bracketSlice taxableIncome b
      · simp [taxLoop, h, hs, ih]
      · have h0 : bracketSlice taxableIncome b = 0 :=
          le_antisymm (not_lt.mp hs) (bracketSlice_nonneg _ _)
        simp [taxLoop, h, hs, ih, h0]

lemma slice_chain_step (t lo m : ℚ) (h : lo ≤ m) :
    max 0 (min t m - lo) + max 0 (t - m) = max 0 (t - lo) := by
  rcases le_total t m with htm | htm
  · rw [min_eq_left htm, max_eq_left (show t - m ≤ 0 by linarith), add_zero]
  · rw [min_eq_right htm, max_eq_right (show (0 : ℚ) ≤ m - lo by linarith),
      max_eq_right (show (0 : ℚ) ≤ t - m by linarith),
      max_eq_right (show (0 : ℚ) ≤ t - lo by linarith)]
    ring

/-- Over the 2026 table, the per-bracket slices of a nonnegative taxable
income partition it exactly: the interval chain telescopes. -/
lemma bracketSlices_sum (t : ℚ) (h : 0 ≤ t) :
    (TAX_BRACKETS_2026.map fun b => bracketSlice t b).sum = t := by
  simp only [TAX_BRACKETS_2026, List.map_cons, List.map_nil, List.sum_cons,
    List.sum_nil]
  rw [bracketSlice_some_eq t 0 800000 0 (by norm_num),
    bracketSlice_some_eq t 800000 3000000 15 (by norm_num),
    bracketSlice_some_eq t 3000000 12000000 18 (by norm_num),
    bracketSlice_some_eq t 12000000 25000000 21 (by norm_num),
    bracketSlice_some_eq t 25000000 50000000 23 (by norm_num),
    bracketSlice_none_eq t 50000000 25, add_zero,
    slice_chain_step t 25000000 50000000 (by norm_num),
    slice_chain_step t 12000000 25000000 (by norm_num),
    slice_chain_step t 3000000 12000000 (by norm_num),
    slice_chain_step t 800000 3000000 (by norm_num),
    slice_chain_step t 0 800000 (by norm_num), sub_zero, max_eq_right h]

/-- On every bracket of the 2026 table, the loop's slice agrees with the
spec-worded slice. -/
lemma bracketSlice_eq_spec_table (t : ℚ) {b : TaxBracket}
    (hb : b ∈ TAX_BRACKETS_2026) :
    bracketSlice t b = bracketSliceSpec t b := by
  fin_cases hb
  · rw [bracketSlice_some_eq _ _ _ _ (by norm_num)]; rfl
  · rw [bracketSlice_some_eq _ _ _ _ (by norm_num)]; rfl
  · rw [bracketSlice_some_eq _ _ _ _ (by norm_num)]; rfl
  · rw [bracketSlice_some_eq _ _ _ _ (by norm_num)]; rfl
  · rw [bracketSlice_some_eq _ _ _ _ (by norm_num)]; rfl
  · rw [bracketSlice_none_eq]; rfl

/-- For nonnegative taxable income, the loop's accumulated tax equals the
spec-worded map-sum over the 2026 table. -/
lemma taxLoop_totalTax_spec (t : ℚ) (h : 0 ≤ t) :
    (taxLoop t TAX_BRACKETS_2026).2
      = (TAX_BRACKETS_2026.map fun b => bracketSliceSpec t b * b.rate / 100).sum := by
  rw [taxLoop_snd]
  split_ifs with h0
  · have ht : t = 0 := le_antisymm h0 h
    subst ht
    simp only [TAX_BRACKETS_2026, bracketSliceSpec, List.map_cons, List.map_nil,
      List.sum_cons, List.sum_nil]
    norm_num
  · unfold bracketTaxSum
    have : ∀ b ∈ TAX_BRACKETS_2026,
        bracketSlice t b * b.rate / 100 = bracketSliceSpec t b * b.rate / 100 := by
      intro b hb
      rw [bracketSlice_eq_spec_table t hb]
    exact congrArg List.sum (List.map_congr_left this)

lemma bracketTaxSum_nonneg (t : ℚ) :
    ∀ bs : List TaxBracket, (∀ b ∈ bs, 0 ≤ b.rate) → 0 ≤ bracketTaxSum t bs := by
  intro bs
  induction bs with
  | nil => intro _; simp [bracketTaxSum]
  | cons b bs ih =>
    intro hr
    have h1 : 0 ≤ bracketSlice t b * b.rate / 100 :=
      div_nonneg (mul_nonneg (bracketSlice_nonneg t b) (hr b (by simp)))
        (by norm_num)
    have h2 := ih fun c hc => hr c (List.mem_cons_of_mem _ hc)
    simp only [bracketTaxSum, List.map_cons, List.sum_cons]
    simp only [bracketTaxSum] at h2
    linarith

lemma bracketTaxSum_mono {t1 t2 : ℚ} (h : t1 ≤ t2) :
    ∀ bs : List TaxBracket, (∀ b ∈ bs, 0 ≤ b.rate) →
      bracketTaxSum t1 bs ≤ bracketTaxSum t2 bs := by
  intro bs
  induction bs with
  | nil => intro _; simp [bracketTaxSum]
  | cons b bs ih =>
    intro hr
    have h1 : bracketSlice t1 b * b.rate / 100 ≤ bracketSlice t2 b * b.rate / 100 := by
      apply (div_le_div_iff_of_pos_right (show (0 : ℚ) < 100 by norm_num)).mpr
      exact mul_le_mul_of_nonneg_right (bracketSlice_mono b h) (hr b (by simp))
    have h2 := ih fun c hc => hr c (List.mem_cons_of_mem _ hc)
    simp only [bracketTaxSum, List.map_cons, List.sum_cons]
    simp only [bracketTaxSum] at h2
    linarith

/-- The loop's accumulated tax over the 2026 table is monotone in taxable
income. -/
lemma taxLoop_totalTax_mono {t1 t2 : ℚ} (h : t1 ≤ t2) :
    (taxLoop t1 TAX_BRACKETS_2026).2 ≤ (taxLoop t2 TAX_BRACKETS_2026).2 := by
  have hr : ∀ b ∈ TAX_BRACKETS_2026, 0 ≤ b.rate := by decide
  rw [taxLoop_snd, taxLoop_snd]
  rcases le_or_lt t1 0 with h1 | h1
  · rw [if_pos h1]
    rcases le_or_lt t2 0 with h2 | h2
    · rw [if_pos h2]
    · rw [if_neg (not_le.mpr h2)]
      exact bracketTaxSum_nonneg t2 TAX_BRACKETS_2026 hr
  · have h2 : ¬ t2 ≤ 0 := fun hc => absurd (h.trans hc) (not_le.mpr h1)
    rw [if_neg (not_le.mpr h1), if_neg h2]
    exact bracketTaxSum_mono h TAX_BRACKETS_2026 hr

/-- Structural reading of the engine: totalTax is the loop's accumulator at
the computed taxable income. -/
lemma calculateTax_totalTax_eq (gross : ℚ) (r : TaxReliefs) :
    (calculateTax gross r).totalTax
      = (taxLoop (calculateTax gross r).taxableIncome TAX_BRACKETS_2026).2 := by
  simp [calculateTax]

/-- Structural reading of the engine: taxPerBracket is the loop's line list at
the computed taxable income. -/
lemma calculateTax_taxPerBracket_eq (gross : ℚ) (r : TaxReliefs) :
    (calculateTax gross r).taxPerBracket
      = (taxLoop (calculateTax gross r).taxableIncome TAX_BRACKETS_2026).1 := by
  simp [calculateTax]

/-- Taxable income is monotone in gross income, reliefs fixed. -/
lemma calculateTax_taxableIncome_mono {i1 i2 : ℚ} (r : TaxReliefs) (h : i1 ≤ i2) :
    (calculateTax i1 r).taxableIncome ≤ (calculateTax i2 r).taxableIncome := by
  simp only [calculateTax]
  exact max_le_max le_rfl (by linarith)

/-- A branch on strict comparison returning the larger value is the maximum. -/
lemma ite_lt_eq_max (a b : ℚ) : (if a < b then b else a) = max a b := by
  by_cases h : a < b
  · rw [if_pos h, max_eq_right h.le]
  · rw [if_neg h, max_eq_left (not_lt.mp h)]

/-- Scaling an optional per-period field by JavaScript truthiness agrees with
scaling its zero-defaulted value. -/
lemma truthyScale_eq (k : ℚ) (x : Option ℚ) : truthyScale k x = k * orZero x := by
  cases x with
  | none => simp [truthyScale, orZero]
  | some v => by_cases hv : v = 0 <;> simp [truthyScale, orZero, hv, mul_comm]

/-- Reliefs of the C1 partition scenario: one taxable custom item of 100000
and one deductible custom item of 50000, nothing else. -/
def c1Reliefs : TaxReliefs :=
  { customDeductions :=
      some [{ id := "1", name := "a", amount := 100000, isTaxable := true },
            { id := "2", name := "b", amount := 50000, isTaxable := false }] }

/-- C1: for every gross income and every reliefs record with a non-empty
custom-deduction list, calculateTax sums the non-taxable amounts into
customDeductionsTotal (reported in the breakdown and included in
totalReliefs) and the taxable amounts into a separate accumulator added back
before the floor-at-zero clamp, so that taxableIncome is
max 0 (gross - totalReliefs + taxableAdditions); in the concrete scenario of
gross 1000000 with one taxable item of 100000 and one deductible item of
50000 the taxable income is 1050000. -/
theorem calculateTax_customDeduction_partition (gross : ℚ) (r : TaxReliefs)
    (h : r.customDeductions.getD [] ≠ []) :
    (calculateTax gross r).customDeductionsTotal
        = (((r.customDeductions.getD []).filter fun d => !d.isTaxable).map
            fun d => d.amount).sum
      ∧ (calculateTax gross r).customDeductions = r.customDeductions.getD []
      ∧ (calculateTax gross r).totalReliefs
          = orZero r.pension + orZero r.nhf + orZero r.nhis +
              orZero r.lifeInsurance + calculateRentRelief (orZero r.rentPaid) +
              (calculateTax gross r).customDeductionsTotal
      ∧ (calculateTax gross r).taxableIncome
          = max 0 (gross - (calculateTax gross r).totalReliefs +
              (((r.customDeductions.getD []).filter fun d => d.isTaxable).map
                fun d => d.amount).sum)
      ∧ (calculateTax 1000000 c1Reliefs).taxableIncome = 1050000 := by
  refine ⟨?_, ?_, ?_, ?_, ?_⟩
  · simp [calculateTax, customDeductionTotals_eq]
  · simp [calculateTax]
  · simp [calculateTax]
  · simp [calculateTax, customDeductionTotals_eq]
  · norm_num [calculateTax, c1Reliefs, orZero, calculateRentRelief,
      customDeductionTotals]

/-- Witness for C1 at the concrete partition scenario. -/
theorem calculateTax_customDeduction_partition_witness :
    c1Reliefs.customDeductions.getD [] ≠ []
      ∧ ((calculateTax 1000000 c1Reliefs).customDeductionsTotal
            = (((c1Reliefs.customDeductions.getD []).filter
                fun d => !d.isTaxable).map fun d => d.amount).sum
          ∧ (calculateTax 1000000 c1Reliefs).customDeductions
              = c1Reliefs.customDeductions.getD []
          ∧ (calculateTax 1000000 c1Reliefs).totalReliefs
              = orZero c1Reliefs.pension + orZero c1Reliefs.nhf +
                  orZero c1Reliefs.nhis + orZero c1Reliefs.lifeInsurance +
                  calculateRentRelief (orZero c1Reliefs.rentPaid) +
                  (calculateTax 1000000 c1Reliefs).customDeductionsTotal
          ∧ (calculateTax 1000000 c1Reliefs).taxableIncome
              = max 0 (1000000 - (calculateTax 1000000 c1Reliefs).totalReliefs +
                  (((c1Reliefs.customDeductions.getD []).filter
                    fun d => d.isTaxable).map fun d => d.amount).sum)
          ∧ (calculateTax 1000000 c1Reliefs).taxableIncome = 1050000) :=
  ⟨by simp [c1Reliefs],
    calculateTax_customDeduction_partition 1000000 c1Reliefs (by simp [c1Reliefs])⟩

/-- C2: the monthly wrapper equals calculateTax on twelve times the income
with the pension, NHF, NHIS and life-insurance fields scaled by 12 and the
rent passed through unscaled, and the weekly wrapper is the same construction
with factor 52. -/
theorem calculateTax_period_wrappers_delegate (m w : ℚ) (r : TaxReliefs) :
    calculateTaxFromMonthly m r
        = calculateTax (12 * m)
            { pension := some (12 * orZero r.pension),
              nhf := some (12 * orZero r.nhf),
              nhis := some (12 * orZero r.nhis),
              lifeInsurance := some (12 * orZero r.lifeInsurance),
              rentPaid := some (orZero r.rentPaid),
              customDeductions := none }
      ∧ calculateTaxFromWeekly w r
          = calculateTax (52 * w)
              { pension := some (52 * orZero r.pension),
                nhf := some (52 * orZero r.nhf),
                nhis := some (52 * orZero r.nhis),
                lifeInsurance := some (52 * orZero r.lifeInsurance),
                rentPaid := some (orZero r.rentPaid),
                customDeductions := none } := by
  constructor
  · unfold calculateTaxFromMonthly monthlyToAnnual
    rw [truthyScale_eq, truthyScale_eq, truthyScale_eq, truthyScale_eq,
      mul_comm m 12]
  · unfold calculateTaxFromWeekly
    rw [truthyScale_eq, truthyScale_eq, truthyScale_eq, truthyScale_eq,
      mul_comm w 52]

/-- C6: with zero reliefs and nonnegative income, totalTax is the sum over
the 2026 brackets of each bracket's slice of taxable income times its rate
over 100, the recorded taxableAmount entries sum to taxableIncome, and the
recorded tax entries sum to totalTax. -/
theorem calculateTax_bracket_sum_invariants (income : ℚ) (h : 0 ≤ income) :
    (calculateTax income emptyReliefs).totalTax
        = (TAX_BRACKETS_2026.map fun b =>
            bracketSliceSpec (calculateTax income emptyReliefs).taxableIncome b
              * b.rate / 100).sum
      ∧ ((calculateTax income emptyReliefs).taxPerBracket.map
          fun l => l.taxableAmount).sum
          = (calculateTax income emptyReliefs).taxableIncome
      ∧ ((calculateTax income emptyReliefs).taxPerBracket.map
          fun l => l.tax).sum
          = (calculateTax income emptyReliefs).totalTax := by
  have hti : (calculateTax income emptyReliefs).taxableIncome = income := by
    simp [calculateTax, emptyReliefs, orZero, calculateRentRelief,
      customDeductionTotals, max_eq_right h]
  refine ⟨?_, ?_, ?_⟩
  · rw [calculateTax_totalTax_eq, hti]
    exact taxLoop_totalTax_spec income h
  · rw [calculateTax_taxPerBracket_eq, taxLoop_fst_amount_sum, hti]
    split_ifs with h0
    · exact (le_antisymm h0 h).symm
    · exact bracketSlices_sum income h
  · rw [calculateTax_taxPerBracket_eq, calculateTax_totalTax_eq,
      taxLoop_fst_tax_sum]

/-- Witness for C6 at income 1000000. -/
theorem calculateTax_bracket_sum_invariants_witness :
    (0 : ℚ) ≤ 1000000
      ∧ ((calculateTax 1000000 emptyReliefs).totalTax
            = (TAX_BRACKETS_2026.map fun b =>
                bracketSliceSpec
                  (calculateTax 1000000 emptyReliefs).taxableIncome b
                  * b.rate / 100).sum
          ∧ ((calculateTax 1000000 emptyReliefs).taxPerBracket.map
              fun l => l.taxableAmount).sum
              = (calculateTax 1000000 emptyReliefs).taxableIncome
          ∧ ((calculateTax 1000000 emptyReliefs).taxPerBracket.map
              fun l => l.tax).sum
              = (calculateTax 1000000 emptyReliefs).totalTax) :=
  ⟨by norm_num, calculateTax_bracket_sum_invariants 1000000 (by norm_num)⟩

/-- C7: under the default 2026 table with no reliefs, income exactly 800000
is taxed 0 (the breakdown shows only the zero-rate bracket line, the 15
percent bracket receiving nothing), and income 1000000 pays 30000 with net
income 970000 (0 from the zero-rate bracket, 200000 at 15 percent). -/
theorem calculateTax_boundary_800k_and_1M :
    (calculateTax 800000 emptyReliefs).totalTax = 0
      ∧ (calculateTax 800000 emptyReliefs).taxPerBracket
          = [{ taxableAmount := 800000, rate := 0, tax := 0 }]
      ∧ (calculateTax 1000000 emptyReliefs).totalTax = 30000
      ∧ (calculateTax 1000000 emptyReliefs).taxPerBracket
          = [{ taxableAmount := 800000, rate := 0, tax := 0 },
             { taxableAmount := 200000, rate := 15, tax := 30000 }]
      ∧ (calculateTax 1000000 emptyReliefs).netIncome = 970000 := by
  refine ⟨?_, ?_, ?_, ?_, ?_⟩ <;>
    norm_num [calculateTax, emptyReliefs, orZero, calculateRentRelief,
      customDeductionTotals, taxLoop, bracketSlice, TAX_BRACKETS_2026]

/-- C8: with reliefs fixed, totalTax never decreases as gross income grows. -/
theorem calculateTax_totalTax_monotone (i1 i2 : ℚ) (r : TaxReliefs)
    (h : i1 ≤ i2) :
    (calculateTax i1 r).totalTax ≤ (calculateTax i2 r).totalTax := by
  rw [calculateTax_totalTax_eq, calculateTax_totalTax_eq]
  exact taxLoop_totalTax_mono (calculateTax_taxableIncome_mono r h)

/-- Witness for C8 on incomes 0 and 1000000 with empty reliefs. -/
theorem calculateTax_totalTax_monotone_witness :
    (0 : ℚ) ≤ 1000000
      ∧ (calculateTax 0 emptyReliefs).totalTax
          ≤ (calculateTax 1000000 emptyReliefs).totalTax :=
  ⟨by norm_num, calculateTax_totalTax_monotone 0 1000000 emptyReliefs (by norm_num)⟩

/-- C3: CIT is zero exactly under any of the three exemptions and 30 percent
of taxable income otherwise, the development levy is exempted only by
small-company status, and hence a startup or agricultural business that is
not small-company exempt pays zero CIT but the full 4 percent levy. -/
theorem calculateBusinessTax_cit_levy_exemptions
    (g : ℚ) (size : CompanySize) (btype : BusinessType)
    (r : BusinessTaxReliefs) (assets : ℚ)
    (g2 : ℚ) (size2 : CompanySize) (btype2 : BusinessType)
    (r2 : BusinessTaxReliefs) (assets2 : ℚ)
    (hex : btype2 = BusinessType.startup ∨ btype2 = BusinessType.agricultural)
    (hns : (calculateBusinessTax g2 size2 btype2 r2 assets2).isSmallCompanyExempt
        = false) :
    ((calculateBusinessTax g size btype r assets).companyIncomeTax
        = if (calculateBusinessTax g size btype r assets).isSmallCompanyExempt
              || (calculateBusinessTax g size btype r assets).isStartupExempt
              || (calculateBusinessTax g size btype r assets).isAgriculturalExempt
          then 0
          else (calculateBusinessTax g size btype r assets).taxableIncome
                * COMPANY_INCOME_TAX_RATE)
      ∧ ((calculateBusinessTax g size btype r assets).developmentLevy
          = if (calculateBusinessTax g size btype r assets).isSmallCompanyExempt
            then 0
            else (calculateBusinessTax g size btype r assets).taxableIncome
                  * DEVELOPMENT_LEVY_RATE)
      ∧ (calculateBusinessTax g2 size2 btype2 r2 assets2).companyIncomeTax = 0
      ∧ (calculateBusinessTax g2 size2 btype2 r2 assets2).developmentLevy
          = (calculateBusinessTax g2 size2 btype2 r2 assets2).taxableIncome
              * DEVELOPMENT_LEVY_RATE := by
  refine ⟨?_, ?_, ?_, ?_⟩
  · simp only [calculateBusinessTax]
  · simp only [calculateBusinessTax]
  · rcases hex with hb | hb <;> subst hb <;> simp [calculateBusinessTax]
  · simp only [calculateBusinessTax] at hns ⊢
    rw [if_neg]
    simp [hns]

/-- Witness for C3: a medium-size startup with gross 1000 that is not
small-company exempt. -/
theorem calculateBusinessTax_cit_levy_exemptions_witness :
    (BusinessType.startup = BusinessType.startup
        ∨ BusinessType.startup = BusinessType.agricultural)
      ∧ (calculateBusinessTax 1000 CompanySize.medium BusinessType.startup
          emptyBusinessReliefs 0).isSmallCompanyExempt = false
      ∧ (((calculateBusinessTax 1000 CompanySize.medium BusinessType.startup
            emptyBusinessReliefs 0).companyIncomeTax
          = if (calculateBusinessTax 1000 CompanySize.medium BusinessType.startup
                  emptyBusinessReliefs 0).isSmallCompanyExempt
                || (calculateBusinessTax 1000 CompanySize.medium
                      BusinessType.startup emptyBusinessReliefs 0).isStartupExempt
                || (calculateBusinessTax 1000 CompanySize.medium
                      BusinessType.startup emptyBusinessReliefs
                      0).isAgriculturalExempt
            then 0
            else (calculateBusinessTax 1000 CompanySize.medium
                    BusinessType.startup emptyBusinessReliefs 0).taxableIncome
                  * COMPANY_INCOME_TAX_RATE)
        ∧ ((calculateBusinessTax 1000 CompanySize.medium BusinessType.startup
              emptyBusinessReliefs 0).developmentLevy
            = if (calculateBusinessTax 1000 CompanySize.medium
                    BusinessType.startup emptyBusinessReliefs
                    0).isSmallCompanyExempt
              then 0
              else (calculateBusinessTax 1000 CompanySize.medium
                      BusinessType.startup emptyBusinessReliefs 0).taxableIncome
                    * DEVELOPMENT_LEVY_RATE)
        ∧ (calculateBusinessTax 1000 CompanySize.medium BusinessType.startup
            emptyBusinessReliefs 0).companyIncomeTax = 0
        ∧ (calculateBusinessTax 1000 CompanySize.medium BusinessType.startup
            emptyBusinessReliefs 0).developmentLevy
            = (calculateBusinessTax 1000 CompanySize.medium BusinessType.startup
                emptyBusinessReliefs 0).taxableIncome * DEVELOPMENT_LEVY_RATE) :=
  ⟨Or.inl rfl,
    by simp [calculateBusinessTax, isSmallCompany],
    calculateBusinessTax_cit_levy_exemptions 1000 CompanySize.medium
      BusinessType.startup emptyBusinessReliefs 0 1000 CompanySize.medium
      BusinessType.startup emptyBusinessReliefs 0 (Or.inl rfl)
      (by simp [calculateBusinessTax, isSmallCompany])⟩

/-- C4: at or above the 50 billion turnover threshold the breakdown reports
minimumEffectiveTax as 15 percent of taxable income and totalTax is the
maximum of CIT plus levy and that minimum; below the threshold the reported
minimumEffectiveTax is 0 and totalTax is CIT plus levy. -/
theorem calculateBusinessTax_minimum_etr_override
    (g1 g2 : ℚ) (size : CompanySize) (btype : BusinessType)
    (r : BusinessTaxReliefs) (assets : ℚ)
    (size2 : CompanySize) (btype2 : BusinessType)
    (r2 : BusinessTaxReliefs) (assets2 : ℚ)
    (h1 : VERY_LARGE_COMPANY_THRESHOLD ≤ g1)
    (h2 : g2 < VERY_LARGE_COMPANY_THRESHOLD) :
    ((calculateBusinessTax g1 size btype r assets).minimumEffectiveTax
        = (calculateBusinessTax g1 size btype r assets).taxableIncome
            * MINIMUM_EFFECTIVE_TAX_RATE
      ∧ (calculateBusinessTax g1 size btype r assets).totalTax
          = max ((calculateBusinessTax g1 size btype r assets).companyIncomeTax
                + (calculateBusinessTax g1 size btype r assets).developmentLevy)
              ((calculateBusinessTax g1 size btype r assets).taxableIncome
                * MINIMUM_EFFECTIVE_TAX_RATE))
      ∧ ((calculateBusinessTax g2 size2 btype2 r2 assets2).minimumEffectiveTax = 0
        ∧ (calculateBusinessTax g2 size2 btype2 r2 assets2).totalTax
            = (calculateBusinessTax g2 size2 btype2 r2 assets2).companyIncomeTax
              + (calculateBusinessTax g2 size2 btype2 r2 assets2).developmentLevy) := by
  have hvl1 : isVeryLargeCompany g1 = true := by
    simp [isVeryLargeCompany, h1]
  have hvl2 : isVeryLargeCompany g2 = false := by
    simp [isVeryLargeCompany]
    exact h2
  constructor
  · constructor
    · simp only [calculateBusinessTax, hvl1, if_true]
    · simp only [calculateBusinessTax, hvl1, if_true]
      rw [ite_lt_eq_max]
  · constructor
    · simp only [calculateBusinessTax, hvl2, Bool.false_eq_true, if_false]
    · simp only [calculateBusinessTax, hvl2, Bool.false_eq_true, if_false]

/-- Witness for C4: a 60 billion turnover startup (where the minimum binds)
and a 1000 turnover medium company below the threshold. -/
theorem calculateBusinessTax_minimum_etr_override_witness :
    VERY_LARGE_COMPANY_THRESHOLD ≤ (60000000000 : ℚ)
      ∧ (1000 : ℚ) < VERY_LARGE_COMPANY_THRESHOLD
      ∧ (((calculateBusinessTax 60000000000 CompanySize.large
            BusinessType.startup emptyBusinessReliefs 0).minimumEffectiveTax
          = (calculateBusinessTax 60000000000 CompanySize.large
              BusinessType.startup emptyBusinessReliefs 0).taxableIncome
              * MINIMUM_EFFECTIVE_TAX_RATE
        ∧ (calculateBusinessTax 60000000000 CompanySize.large
            BusinessType.startup emptyBusinessReliefs 0).totalTax
            = max ((calculateBusinessTax 60000000000 CompanySize.large
                    BusinessType.startup emptyBusinessReliefs 0).companyIncomeTax
                  + (calculateBusinessTax 60000000000 CompanySize.large
                      BusinessType.startup emptyBusinessReliefs 0).developmentLevy)
                ((calculateBusinessTax 60000000000 CompanySize.large
                    BusinessType.startup emptyBusinessReliefs 0).taxableIncome
                  * MINIMUM_EFFECTIVE_TAX_RATE))
        ∧ ((calculateBusinessTax 1000 CompanySize.medium BusinessType.general
              emptyBusinessReliefs 0).minimumEffectiveTax = 0
          ∧ (calculateBusinessTax 1000 CompanySize.medium BusinessType.general
              emptyBusinessReliefs 0).totalTax
              = (calculateBusinessTax 1000 CompanySize.medium
                  BusinessType.general emptyBusinessReliefs 0).companyIncomeTax
                + (calculateBusinessTax 1000 CompanySize.medium
                    BusinessType.general emptyBusinessReliefs 0).developmentLevy)) :=
  ⟨by decide, by decide,
    calculateBusinessTax_minimum_etr_override 60000000000 1000 CompanySize.large
      BusinessType.startup emptyBusinessReliefs 0 CompanySize.medium
      BusinessType.general emptyBusinessReliefs 0 (by decide) (by decide)⟩

/-- C5: small-company exemption holds exactly when the caller-selected size is
small and both the inclusive turnover and assets bounds hold; at the boundary
values 50000000 and 250000000 the exemption applies and both CIT and levy
are zero. -/
theorem calculateBusinessTax_small_company_exemption
    (g : ℚ) (size : CompanySize) (btype : BusinessType)
    (r : BusinessTaxReliefs) (assets : ℚ) :
    ((calculateBusinessTax g size btype r assets).isSmallCompanyExempt = true
        ↔ size = CompanySize.small ∧ g ≤ 50000000 ∧ assets ≤ 250000000)
      ∧ (calculateBusinessTax 50000000 CompanySize.small BusinessType.general
          emptyBusinessReliefs 250000000).isSmallCompanyExempt = true
      ∧ (calculateBusinessTax 50000000 CompanySize.small BusinessType.general
          emptyBusinessReliefs 250000000).companyIncomeTax = 0
      ∧ (calculateBusinessTax 50000000 CompanySize.small BusinessType.general
          emptyBusinessReliefs 250000000).developmentLevy = 0 := by
  refine ⟨?_, ?_, ?_, ?_⟩
  · simp [calculateBusinessTax, isSmallCompany,
      SMALL_COMPANY_TURNOVER_THRESHOLD, SMALL_COMPANY_ASSETS_THRESHOLD,
      and_assoc]
  · decide
  · decide
  · decide

/-- Business reliefs of the C9 scenario: a single custom item flagged taxable
whose amount dwarfs the gross income. -/
def c9Reliefs : BusinessTaxReliefs :=
  { customDeductions :=
      some [{ id := "1", name := "adjust", amount := 1000000, isTaxable := true }] }

/-- C9: the business net income is not floored at zero: a medium general
business with gross 100 and a taxable custom addition of 1000000 has taxable
income and total tax both above its gross income, and its net income, equal
to gross income minus total tax, is strictly negative. -/
theorem calculateBusinessTax_netIncome_not_floored :
    (calculateBusinessTax 100 CompanySize.medium BusinessType.general
        c9Reliefs 0).taxableIncome > 100
      ∧ (calculateBusinessTax 100 CompanySize.medium BusinessType.general
          c9Reliefs 0).totalTax > 100
      ∧ (calculateBusinessTax 100 CompanySize.medium BusinessType.general
          c9Reliefs 0).netIncome
          = 100 - (calculateBusinessTax 100 CompanySize.medium
              BusinessType.general c9Reliefs 0).totalTax
      ∧ (calculateBusinessTax 100 CompanySize.medium BusinessType.general
          c9Reliefs 0).netIncome < 0 := by
  refine ⟨?_, ?_, ?_, ?_⟩ <;>
    norm_num [calculateBusinessTax, c9Reliefs, customDeductionTotals, orZero,
      calculateBusinessRentRelief, isSmallCompany, isVeryLargeCompany,
      SMALL_COMPANY_TURNOVER_THRESHOLD, SMALL_COMPANY_ASSETS_THRESHOLD,
      VERY_LARGE_COMPANY_THRESHOLD, COMPANY_INCOME_TAX_RATE,
      DEVELOPMENT_LEVY_RATE, MINIMUM_EFFECTIVE_TAX_RATE,
      EMPLOYMENT_RELIEF_RATE, COMPENSATION_RELIEF_RATE] <;>
    (simp only [reduceCtorEq, or_self, if_false]; norm_num)

/-- C10 counterexample: with gross income 0 and an NHF relief of 1000000, a
negative pension of -100 does flow into the breakdown unfloored, yet the
taxable income is NOT strictly larger than with the pension field absent:
both are clamped to 0 by the floor-at-zero, refuting the claim's
"taxableIncome is larger" at this input. -/
theorem calculateTax_negative_relief_counterexample :
    (calculateTax 0 { pension := some (-100), nhf := some 1000000 }).pensionRelief
        = -100
      ∧ ¬ ((calculateTax 0 { nhf := some 1000000 }).taxableIncome
            < (calculateTax 0
                { pension := some (-100), nhf := some 1000000 }).taxableIncome) := by
  constructor
  · norm_num [calculateTax, orZero]
  · norm_num [calculateTax, orZero, calculateRentRelief, customDeductionTotals]

/-- C10 as amended: negative named relief inputs are not floored at zero: a
negative pension, NHF, NHIS or life-insurance value passes through as-is into
the breakdown field, strictly lowers totalReliefs, and taxableIncome is at
least as large as with the field absent (not always strictly larger, because
of the floor-at-zero clamp); the business engine passes pension, NHF and NHIS
through with no lower bound; and both engines' rent relief is 0 for any rent
paid at most 0. -/
theorem calculateTax_negative_reliefs_passthrough
    (g v : ℚ) (r : TaxReliefs) (hv : v < 0)
    (gB : ℚ) (sizeB : CompanySize) (btypeB : BusinessType)
    (rB : BusinessTaxReliefs) (assetsB : ℚ)
    (rp : ℚ) (hrp : rp ≤ 0) :
    ((calculateTax g { r with pension := some v }).pensionRelief = v
      ∧ (calculateTax g { r with pension := some v }).totalReliefs
          < (calculateTax g { r with pension := none }).totalReliefs
      ∧ (calculateTax g { r with pension := none }).taxableIncome
          ≤ (calculateTax g { r with pension := some v }).taxableIncome)
    ∧ ((calculateTax g { r with nhf := some v }).nhfRelief = v
      ∧ (calculateTax g { r with nhf := some v }).totalReliefs
          < (calculateTax g { r with nhf := none }).totalReliefs
      ∧ (calculateTax g { r with nhf := none }).taxableIncome
          ≤ (calculateTax g { r with nhf := some v }).taxableIncome)
    ∧ ((calculateTax g { r with nhis := some v }).nhisRelief = v
      ∧ (calculateTax g { r with nhis := some v }).totalReliefs
          < (calculateTax g { r with nhis := none }).totalReliefs
      ∧ (calculateTax g { r with nhis := none }).taxableIncome
          ≤ (calculateTax g { r with nhis := some v }).taxableIncome)
    ∧ ((calculateTax g { r with lifeInsurance := some v }).lifeInsuranceRelief = v
      ∧ (calculateTax g { r with lifeInsurance := some v }).totalReliefs
          < (calculateTax g { r with lifeInsurance := none }).totalReliefs
      ∧ (calculateTax g { r with lifeInsurance := none }).taxableIncome
          ≤ (calculateTax g { r with lifeInsurance := some v }).taxableIncome)
    ∧ ((calculateBusinessTax gB sizeB btypeB rB assetsB).pensionRelief
          = orZero rB.pension
      ∧ (calculateBusinessTax gB sizeB btypeB rB assetsB).nhfRelief
          = orZero rB.nhf
      ∧ (calculateBusinessTax gB sizeB btypeB rB assetsB).nhisRelief
          = orZero rB.nhis)
    ∧ calculateRentRelief rp = 0
    ∧ calculateBusinessRentRelief rp = 0 := by
  refine ⟨⟨?_, ?_, ?_⟩, ⟨?_, ?_, ?_⟩, ⟨?_, ?_, ?_⟩, ⟨?_, ?_, ?_⟩,
    ⟨?_, ?_, ?_⟩, ?_, ?_⟩
  · simp [calculateTax, orZero]
  · simp only [calculateTax, orZero, Option.getD_some, Option.getD_none]
    linarith
  · simp only [calculateTax, orZero, Option.getD_some, Option.getD_none]
    exact max_le_max le_rfl (by linarith)
  · simp [calculateTax, orZero]
  · simp only [calculateTax, orZero, Option.getD_some, Option.getD_none]
    linarith
  · simp only [calculateTax, orZero, Option.getD_some, Option.getD_none]
    exact max_le_max le_rfl (by linarith)
  · simp [calculateTax, orZero]
  · simp only [calculateTax, orZero, Option.getD_some, Option.getD_none]
    linarith
  · simp only [calculateTax, orZero, Option.getD_some, Option.getD_none]
    exact max_le_max le_rfl (by linarith)
  · simp [calculateTax, orZero]
  · simp only [calculateTax, orZero, Option.getD_some, Option.getD_none]
    linarith
  · simp only [calculateTax, orZero, Option.getD_some, Option.getD_none]
    exact max_le_max le_rfl (by linarith)
  · simp [calculateBusinessTax]
  · simp [calculateBusinessTax]
  · simp [calculateBusinessTax]
  · simp [calculateRentRelief, hrp]
  · simp [calculateBusinessRentRelief, hrp]

/-- Business reliefs of the C10 witness: a negative pension contribution. -/
def c10BusinessReliefs : BusinessTaxReliefs := { pension := some (-50) }

/-- Witness for the amended C10 at value -100 against empty reliefs, a
medium general business with a negative pension, and rent -5. -/
theorem calculateTax_negative_reliefs_passthrough_witness :
    (-100 : ℚ) < 0
      ∧ (-5 : ℚ) ≤ 0
      ∧ (((calculateTax 1000000 { emptyReliefs with pension := some (-100) }).pensionRelief = -100
          ∧ (calculateTax 1000000 { emptyReliefs with pension := some (-100) }).totalReliefs
              < (calculateTax 1000000 { emptyReliefs with pension := none }).totalReliefs
          ∧ (calculateTax 1000000 { emptyReliefs with pension := none }).taxableIncome
              ≤ (calculateTax 1000000 { emptyReliefs with pension := some (-100) }).taxableIncome)
        ∧ ((calculateTax 1000000 { emptyReliefs with nhf := some (-100) }).nhfRelief = -100
          ∧ (calculateTax 1000000 { emptyReliefs with nhf := some (-100) }).totalReliefs
              < (calculateTax 1000000 { emptyReliefs with nhf := none }).totalReliefs
          ∧ (calculateTax 1000000 { emptyReliefs with nhf := none }).taxableIncome
              ≤ (calculateTax 1000000 { emptyReliefs with nhf := some (-100) }).taxableIncome)
        ∧ ((calculateTax 1000000 { emptyReliefs with nhis := some (-100) }).nhisRelief = -100
          ∧ (calculateTax 1000000 { emptyReliefs with nhis := some (-100) }).totalReliefs
              < (calculateTax 1000000 { emptyReliefs with nhis := none }).totalReliefs
          ∧ (calculateTax 1000000 { emptyReliefs with nhis := none }).taxableIncome
              ≤ (calculateTax 1000000 { emptyReliefs with nhis := some (-100) }).taxableIncome)
        ∧ ((calculateTax 1000000 { emptyReliefs with lifeInsurance := some (-100) }).lifeInsuranceRelief = -100
          ∧ (calculateTax 1000000 { emptyReliefs with lifeInsurance := some (-100) }).totalReliefs
              < (calculateTax 1000000 { emptyReliefs with lifeInsurance := none }).totalReliefs
          ∧ (calculateTax 1000000 { emptyReliefs with lifeInsurance := none }).taxableIncome
              ≤ (calculateTax 1000000 { emptyReliefs with lifeInsurance := some (-100) }).taxableIncome)
        ∧ ((calculateBusinessTax 1000 CompanySize.medium BusinessType.general
              c10BusinessReliefs 0).pensionRelief = orZero c10BusinessReliefs.pension
          ∧ (calculateBusinessTax 1000 CompanySize.medium BusinessType.general
              c10BusinessReliefs 0).nhfRelief = orZero c10BusinessReliefs.nhf
          ∧ (calculateBusinessTax 1000 CompanySize.medium BusinessType.general
              c10BusinessReliefs 0).nhisRelief = orZero c10BusinessReliefs.nhis)
        ∧ calculateRentRelief (-5) = 0
        ∧ calculateBusinessRentRelief (-5) = 0) :=
  ⟨by norm_num, by norm_num,
    calculateTax_negative_reliefs_passthrough 1000000 (-100) emptyReliefs
      (by norm_num) 1000 CompanySize.medium BusinessType.general
      c10BusinessReliefs 0 (-5) (by norm_num)⟩
